import Mathlib

/-!
Verification of the DDNS update client (src/main.py) against its design
specification.  The Python program is shallowly embedded: interface
enumeration, address selection, response classification and the main
pipeline become pure Lean functions; OS enumeration, the transport
exchange and the query module's attribute set are passed in as explicit
inputs, mirroring the points where the program consults its environment.
-/

/-! ## Address resolver (get_interface_ip, src/main.py lines 102-129) -/

/-- Loopback range 127.0.0.0/8, as tested by the ipaddress library's
IPv4Address.is_loopback which the code calls. -/
def is_loopback (ip : Nat) : Bool := decide (2130706432 ≤ ip ∧ ip < 2147483648)

/-- Link-local range 169.254.0.0/16 (IPv4Address.is_link_local). -/
def is_link_local (ip : Nat) : Bool := decide (2851995648 ≤ ip ∧ ip < 2852061184)

/-- Reserved range 240.0.0.0/4 (IPv4Address.is_reserved). -/
def is_reserved (ip : Nat) : Bool := decide (4026531840 ≤ ip)

/-- Address family of one psutil snicaddr entry: AF_INET or anything else. -/
inductive AddrFamily
  | inet
  | other
deriving DecidableEq

/-- One psutil address entry: its family and, for inet entries, the IPv4
address as a 32-bit numeric value. -/
structure SnicAddr where
  family : AddrFamily
  address : Nat
deriving DecidableEq

/-- A psutil.net_if_addrs() snapshot: interface names in enumeration order,
each with its address list. -/
abbrev Enumeration := List (String × List SnicAddr)

/-- The fixed preference list the heuristic fallback scans for
(src/main.py line 103). -/
def special_interfaces : List String := ["wlan", "以太网", "ethernet"]

/-- ASCII lowercasing of an interface name, mirroring the name.lower()
call the heuristic comparison applies (all preference-list entries are
caseless or lowercase ASCII). -/
def strLower (s : String) : String := String.mk (s.data.map Char.toLower)

/-- Address list of the first interface whose lowercased name is in the
preference list (the loop at src/main.py lines 110-113). -/
def findSpecial : Enumeration → Option (List SnicAddr)
  | [] => none
  | (n, addrs) :: rest =>
      if strLower n ∈ special_interfaces then some addrs else findSpecial rest

/-- Dictionary lookup of an interface by exact name
(src/main.py lines 115-117). -/
def lookupIf (interface_name : String) : Enumeration → Option (List SnicAddr)
  | [] => none
  | (n, addrs) :: rest =>
      if n = interface_name then some addrs else lookupIf interface_name rest

/-- The usability test of src/main.py lines 121-124: IPv4 family and not
loopback, not link-local, not reserved. -/
def usableAddr (a : SnicAddr) : Bool :=
  decide (a.family = AddrFamily.inet) &&
    !(is_loopback a.address) && !(is_link_local a.address) && !(is_reserved a.address)

/-- The scan at src/main.py lines 120-125: first AF_INET entry passing the
flag checks is returned; all other entries are skipped. -/
def firstUsable : List SnicAddr → Option Nat
  | [] => none
  | a :: rest =>
      if a.family = AddrFamily.inet then
        if !(is_loopback a.address) && !(is_link_local a.address) && !(is_reserved a.address) then
          some a.address
        else firstUsable rest
      else firstUsable rest

/-- The exceptions that can arise inside get_interface_ip's try block:
the ValueError raised for an explicitly named interface that is absent
(line 116), the NameError from the unbound netif variable when the
heuristic loop matched nothing (line 120), and a failure of the
enumeration call itself (line 106). -/
inductive IfError
  | interfaceNotFound (name : String)
  | heuristicNoMatch
  | enumerationFailed
deriving DecidableEq

/-- The body of get_interface_ip's try block, with each raised exception
made explicit as an error value.  The enumeration argument is the outcome
of the psutil.net_if_addrs() call. -/
def get_interface_ip_ex (interface_name : Option String)
    (enum : Except Unit Enumeration) : Except IfError (Option Nat) :=
  match enum with
  | .error _ => .error IfError.enumerationFailed
  | .ok net_if_addrs =>
      match interface_name with
      | none =>
          match findSpecial net_if_addrs with
          | none => .error IfError.heuristicNoMatch
          | some netif => .ok (firstUsable netif)
      | some nm =>
          match lookupIf nm net_if_addrs with
          | none => .error (IfError.interfaceNotFound nm)
          | some netif => .ok (firstUsable netif)

/-- get_interface_ip itself: the except-Exception handler at
src/main.py lines 126-129 logs and collapses every exception to the single
failure value None, which is also what a fruitless scan returns. -/
def get_interface_ip (interface_name : Option String)
    (enum : Except Unit Enumeration) : Option Nat :=
  match get_interface_ip_ex interface_name enum with
  | .error _ => none
  | .ok r => r

/-! ## Update transaction engine: response classification
(src/main.py lines 211-237) -/

/-- dns.rcode.NOERROR -/
def NOERROR : Nat := 0

/-- dns.rcode.SERVFAIL -/
def SERVFAIL : Nat := 2

/-- dns.rcode.NXDOMAIN -/
def NXDOMAIN : Nat := 3

/-- dns.rcode.REFUSED -/
def REFUSED : Nat := 5

/-- dns.rcode.NOTAUTH -/
def NOTAUTH : Nat := 9

/-- dns.rcode.NOTZONE -/
def NOTZONE : Nat := 10

/-- A decoded server response: its status code and its transaction id. -/
structure DnsResponse where
  rcodeVal : Nat
  id : Nat
deriving DecidableEq

/-- The dns.exception.DNSException subclasses the except clause at
src/main.py line 241 can catch during the exchange. -/
inductive TransportError
  | timeout
  | connectionFailure
  | malformedResponse
  | verificationFailure
deriving DecidableEq

/-- The classified outcome of one update attempt, one constructor per
branch of src/main.py lines 211-245. -/
inductive UpdateOutcome
  | success (transactionId : Nat)
  | failNxdomain
  | failServfail
  | failNotauth
  | failNotzone
  | failRefused
  | failUnknown (code : Nat)
  | transportFailed (e : TransportError)
deriving DecidableEq

/-- The if/elif chain over response.rcode() at src/main.py lines 211-237,
in source order. -/
def classifyResponse (r : DnsResponse) : UpdateOutcome :=
  if r.rcodeVal = NOERROR then .success r.id
  else if r.rcodeVal = NXDOMAIN then .failNxdomain
  else if r.rcodeVal = SERVFAIL then .failServfail
  else if r.rcodeVal = NOTAUTH then .failNotauth
  else if r.rcodeVal = NOTZONE then .failNotzone
  else if r.rcodeVal = REFUSED then .failRefused
  else .failUnknown r.rcodeVal

/-- What one transport exchange yields: a DNSException or a response. -/
abbrev ExchangeResult := Except TransportError DnsResponse

/-- The try/except around the exchange (src/main.py lines 200-245):
exceptions take the dedicated handler, responses take the rcode chain. -/
def classifyExchange : ExchangeResult → UpdateOutcome
  | .error e => .transportFailed e
  | .ok r => classifyResponse r

/-- The engine performs exactly one exchange per invocation: attempt 0 of
the oracle describing what each successive attempt would return. -/
def engineRun (oracle : Nat → ExchangeResult) : UpdateOutcome :=
  classifyExchange (oracle 0)

/-! ## Update message construction and wire codec
(dns.update.Update / update.replace, called at src/main.py lines 192-197) -/

/-- DNS record class as used in an UPDATE section: IN for adds, ANY for
delete-an-RRset entries. -/
inductive RClass
  | inClass
  | anyClass
deriving DecidableEq

/-- Numeric class codes on the wire: IN = 1, ANY = 255. -/
def rclassCode : RClass → Nat
  | .inClass => 1
  | .anyClass => 255

/-- Numeric type code of an A record. -/
def typeA : Nat := 1

/-- One record of the update section: owner name, type, class, TTL and
optional RDATA (absent for a delete-RRset entry). -/
structure WireRecord where
  name : String
  rtype : Nat
  rclass : RClass
  ttl : Nat
  rdata : Option Nat
deriving DecidableEq

/-- Absolute form of a hostname label relative to a zone whose name already
carries its trailing dot. -/
def fqdn (hostname zone : String) : String := hostname ++ "." ++ zone

/-- Modelled from the spec: the update-message builder lives in the
dnspython library, not under src.  Per the spec, replace is one
RRset-replace action: delete any existing A records for the hostname
within the zone (a class-ANY, TTL-0, empty-RDATA record), then add exactly
one A record with the given TTL and address. -/
def replaceOp (hostname zone : String) (ttl : Nat) (address : Nat) : List WireRecord :=
  [⟨fqdn hostname zone, typeA, RClass.anyClass, 0, none⟩,
   ⟨fqdn hostname zone, typeA, RClass.inClass, ttl, some address⟩]

/-- A single-zone UPDATE message: the zone section and the update section. -/
structure BuiltUpdate where
  zone : String
  updates : List WireRecord
deriving DecidableEq

/-- The message built at src/main.py lines 192-197: Update(zone) followed
by update.replace(hostname, ttl, A, address). -/
def buildUpdate (hostname zone : String) (ttl : Nat) (address : Nat) : BuiltUpdate :=
  ⟨zone, replaceOp hostname zone ttl address⟩

/-- Length-prefixed encoding of a string as a token stream. -/
def encodeStr (s : String) : List Nat :=
  s.length :: s.data.map Char.toNat

/-- Serialization of one update-section record: owner name, then type,
class and TTL tokens, then an RDATA-length token followed by the RDATA. -/
def encodeRecord (r : WireRecord) : List Nat :=
  encodeStr r.name ++ [r.rtype, rclassCode r.rclass, r.ttl] ++
    (match r.rdata with
     | none => [0]
     | some a => [1, a])

/-- Serialization of a whole UPDATE message: zone section, then the
update-section records in order. -/
def serializeUpdate (m : BuiltUpdate) : List Nat :=
  encodeStr m.zone ++ (m.updates.map encodeRecord).flatten

/-- Split off the first n tokens, failing when fewer remain. -/
def takeN : Nat → List Nat → Option (List Nat × List Nat)
  | 0, xs => some ([], xs)
  | _ + 1, [] => none
  | n + 1, x :: xs =>
      match takeN n xs with
      | none => none
      | some (a, b) => some (x :: a, b)

/-- Decoder for a length-prefixed string. -/
def decodeStr : List Nat → Option (String × List Nat)
  | [] => none
  | len :: rest =>
      match takeN len rest with
      | none => none
      | some (cs, r) => some (String.mk (cs.map Char.ofNat), r)

/-- Decoder for a numeric class code. -/
def decodeRClass (c : Nat) : Option RClass :=
  if c = 1 then some RClass.inClass
  else if c = 255 then some RClass.anyClass
  else none

/-- Decoder for one update-section record. -/
def decodeRecord (l : List Nat) : Option (WireRecord × List Nat) :=
  match decodeStr l with
  | none => none
  | some (nm, rest) =>
      match rest with
      | t :: c :: ttl :: flag :: rest2 =>
          match decodeRClass c with
          | none => none
          | some rc =>
              if flag = 0 then some (⟨nm, t, rc, ttl, none⟩, rest2)
              else if flag = 1 then
                match rest2 with
                | [] => none
                | a :: rest3 => some (⟨nm, t, rc, ttl, some a⟩, rest3)
              else none
      | _ => none

/-- An RRset-replace operation recovered from the wire: the owner name and
the single A record (TTL and address) that replaces the RRset. -/
structure ReplaceOperation where
  name : String
  ttl : Nat
  address : Nat
deriving DecidableEq

/-- Decode a serialized message as a zone plus one RRset-replace action:
exactly two update records, a class-ANY TTL-0 empty-RDATA delete for type A
followed by one class-IN A record on the same owner name, nothing after. -/
def decodeReplace (l : List Nat) : Option (String × ReplaceOperation) :=
  match decodeStr l with
  | none => none
  | some (zone, r1) =>
      match decodeRecord r1 with
      | none => none
      | some (d1, r2) =>
          match decodeRecord r2 with
          | none => none
          | some (d2, r3) =>
              if r3 = [] ∧ d1.name = d2.name ∧ d1.rtype = typeA ∧ d2.rtype = typeA ∧
                  d1.rclass = RClass.anyClass ∧ d1.ttl = 0 ∧ d1.rdata = none ∧
                  d2.rclass = RClass.inClass then
                match d2.rdata with
                | none => none
                | some a => some (zone, ⟨d2.name, d2.ttl, a⟩)
              else none

/-! ## Configuration and main pipeline
(src/main.py lines 41-68, 163-245 and 248-284) -/

/-- A TSIG key entry of the configuration. -/
structure TSIGKeyM where
  name : String
  algorithm : String
  secret : String
deriving DecidableEq

/-- The merged configuration object main() reads: file values overridden
by command-line values, as assembled at src/main.py lines 248-277. -/
structure ConfigM where
  tsig : List TSIGKeyM
  name_server : Option String
  zone : String
  hostname : String
  ttl : Int
  timeout : Nat
  protocol : String
  interface : Option String
deriving DecidableEq

/-- Default TTL of the Config model (src/main.py line 48). -/
def configDefaultTtl : Int := 3600

/-- Default TTL of the command-line parser (src/main.py line 138). -/
def cliDefaultTtl : Int := 300

/-- The endswith test of src/main.py line 280 for the one-character
suffix: does the last character of the zone string equal the dot. -/
def endsWithDot (z : String) : Bool :=
  match z.data.getLast? with
  | some c => c = '.'
  | none => false

/-- The zone normalization at src/main.py line 280, applied in __main__
before main() runs: append a trailing dot unless one is already there. -/
def normalizeZone (z : String) : String :=
  if endsWithDot z then z else z ++ "."

/-- Modelled from the spec: the attribute set of the external dnspython
query module, which line 201 consults with dir().  It offers many more
transports than the tcp/udp pair named by the configuration schema,
among them tls, https and quic. -/
def dirDnsQuery : List String :=
  ["https", "inbound_xfr", "quic", "receive_tcp", "receive_udp",
   "send_tcp", "send_udp", "socket", "ssl", "struct", "tcp", "time",
   "tls", "udp", "udp_with_fallback", "xfr"]

/-- The dispatch at src/main.py lines 201-209: if the protocol string is an
attribute of the query module, getattr selects that callable (represented
here by its name); otherwise a ValueError is raised. -/
def protocolDispatch (moduleAttrs : List String) (protocol : String) : Except String String :=
  if protocol ∈ moduleAttrs then .ok protocol else .error protocol

/-- What a run that reaches the exchange produces: the built message and
the classified outcome. -/
structure RunResult where
  request : BuiltUpdate
  outcome : UpdateOutcome
deriving DecidableEq

/-- The program from __main__'s zone normalization through main():
precondition checks (lines 164-176), address resolution and its abort
(lines 184-187), message construction (lines 192-197), protocol dispatch
and the exchange (lines 200-245).  Except.error carries the process exit
code: sys.exit(1) for the explicit aborts, and 1 for the uncaught
exceptions (the unsupported-protocol ValueError, and the BadTTL the
library's TTL bound check raises from update.replace, which sits outside
the try block).  A caught DNSException or any response rcode ends the run
normally, so those come back as Except.ok. -/
def runProgram (c0 : ConfigM) (enum : Except Unit Enumeration)
    (moduleAttrs : List String) (oracle : Nat → ExchangeResult) : Except Nat RunResult :=
  if c0.name_server = none ∨ c0.name_server = some "" then .error 1
  else if normalizeZone c0.zone = "" then .error 1
  else if c0.hostname = "" then .error 1
  else if c0.tsig = [] then .error 1
  else
    match get_interface_ip c0.interface enum with
    | none => .error 1
    | some ip =>
        if c0.ttl < (0 : Int) ∨ (2147483647 : Int) < c0.ttl then .error 1
        else
          match protocolDispatch moduleAttrs c0.protocol with
          | .error _ => .error 1
          | .ok _ =>
              .ok ⟨buildUpdate c0.hostname (normalizeZone c0.zone) c0.ttl.toNat ip,
                   classifyExchange (oracle 0)⟩

/-- TTL of the single added record of a built message, when the update
section has the two-record replace shape. -/
def requestTtl (b : BuiltUpdate) : Option Nat :=
  match b.updates with
  | [_, addRec] => some addRec.ttl
  | _ => none

/-! ## Concrete fixtures used by witnesses and counterexamples -/

/-- A well-formed TSIG key entry. -/
def keyA : TSIGKeyM := ⟨"key1", "hmac-sha256", "c2VjcmV0"⟩

/-- Address list of the sample eth0 interface: one non-inet entry followed
by the globally routable 192.0.2.1 (numeric 3221225985). -/
def addrsEth : List SnicAddr := [⟨AddrFamily.other, 99⟩, ⟨AddrFamily.inet, 3221225985⟩]

/-- A sample enumeration: a loopback interface, then eth0. -/
def enumEth : Enumeration := [("lo", [⟨AddrFamily.inet, 2130706433⟩]), ("eth0", addrsEth)]

/-- An exchange oracle that always answers NOERROR with transaction id 42. -/
def oracleNoerror : Nat → ExchangeResult := fun _ => Except.ok ⟨0, 42⟩

/-- A complete, valid configuration. -/
def cfgOk : ConfigM :=
  ⟨[keyA], some "203.0.113.1", "example.com.", "host", 300, 5, "udp", some "eth0"⟩

/-- The same configuration with the zone left unset (its empty default). -/
def cfgZoneMissing : ConfigM := { cfgOk with zone := "" }

/-- The same configuration with TTL zero. -/
def cfgTtlZero : ConfigM := { cfgOk with ttl := 0 }


/-! ## Helper lemmas -/

theorem firstUsable_eq_find (l : List SnicAddr) :
    firstUsable l = (l.find? usableAddr).map SnicAddr.address := by
  induction l with
  | nil => rfl
  | cons a rest ih =>
      by_cases hu : usableAddr a = true
      · rw [List.find?_cons_of_pos _ hu]
        have hf : a.family = AddrFamily.inet := by
          by_contra hc
          simp [usableAddr, hc] at hu
        have hflag : (!(is_loopback a.address) && !(is_link_local a.address) &&
            !(is_reserved a.address)) = true := by
          simpa [usableAddr, hf] using hu
        simp [firstUsable, hf, hflag]
      · rw [List.find?_cons_of_neg _ hu]
        by_cases hf : a.family = AddrFamily.inet
        · have hflag : ¬(!(is_loopback a.address) && !(is_link_local a.address) &&
              !(is_reserved a.address)) = true := by
            intro hc
            exact hu (by simp [usableAddr, hf, hc])
          simp [firstUsable, hf, hflag, ih]
        · simp [firstUsable, hf, ih]

theorem findSpecial_eq_find (enum : Enumeration) :
    findSpecial enum =
      (enum.find? fun p => decide (strLower p.1 ∈ special_interfaces)).map Prod.snd := by
  induction enum with
  | nil => rfl
  | cons p rest ih =>
      obtain ⟨n, addrs⟩ := p
      by_cases hm : strLower n ∈ special_interfaces
      · rw [List.find?_cons_of_pos _ (by simpa using hm)]
        simp [findSpecial, hm]
      · rw [List.find?_cons_of_neg _ (by simpa using hm)]
        simp [findSpecial, hm, ih]

/-! ## Claim theorems -/

/-- C1: the engine classifies every server response by status code:
NOERROR yields Success carrying the response's transaction id verbatim;
NXDOMAIN, SERVFAIL, NOTAUTH, NOTZONE and REFUSED each yield their own
distinct failure category, never the generic one; every other non-zero
status yields the generic unknown-status failure carrying the raw code. -/
theorem c1_response_classification :
    (∀ i, classifyResponse ⟨NOERROR, i⟩ = UpdateOutcome.success i) ∧
    (∀ i, classifyResponse ⟨NXDOMAIN, i⟩ = UpdateOutcome.failNxdomain) ∧
    (∀ i, classifyResponse ⟨SERVFAIL, i⟩ = UpdateOutcome.failServfail) ∧
    (∀ i, classifyResponse ⟨NOTAUTH, i⟩ = UpdateOutcome.failNotauth) ∧
    (∀ i, classifyResponse ⟨NOTZONE, i⟩ = UpdateOutcome.failNotzone) ∧
    (∀ i, classifyResponse ⟨REFUSED, i⟩ = UpdateOutcome.failRefused) ∧
    (∀ rc i, rc ∉ [NOERROR, NXDOMAIN, SERVFAIL, NOTAUTH, NOTZONE, REFUSED] →
        classifyResponse ⟨rc, i⟩ = UpdateOutcome.failUnknown rc) ∧
    ([UpdateOutcome.failNxdomain, UpdateOutcome.failServfail, UpdateOutcome.failNotauth,
      UpdateOutcome.failNotzone, UpdateOutcome.failRefused].Pairwise (· ≠ ·)) ∧
    (∀ c, UpdateOutcome.failNxdomain ≠ UpdateOutcome.failUnknown c ∧
          UpdateOutcome.failServfail ≠ UpdateOutcome.failUnknown c ∧
          UpdateOutcome.failNotauth ≠ UpdateOutcome.failUnknown c ∧
          UpdateOutcome.failNotzone ≠ UpdateOutcome.failUnknown c ∧
          UpdateOutcome.failRefused ≠ UpdateOutcome.failUnknown c) := by
  refine ⟨fun i => rfl, fun i => rfl, fun i => rfl, fun i => rfl, fun i => rfl, fun i => rfl,
    ?_, by decide, fun c => ⟨nofun, nofun, nofun, nofun, nofun⟩⟩
  intro rc i h
  simp only [List.mem_cons, List.not_mem_nil, or_false, NOERROR, NXDOMAIN, SERVFAIL,
    NOTAUTH, NOTZONE, REFUSED] at h
  push_neg at h
  obtain ⟨h0, h3, h2, h9, h10, h5⟩ := h
  simp [classifyResponse, NOERROR, NXDOMAIN, SERVFAIL, NOTAUTH, NOTZONE, REFUSED,
    h0, h3, h2, h9, h10, h5]

/-- Witness for C1 at concrete status codes 0 and 7. -/
theorem c1_response_classification_witness :
    classifyResponse ⟨0, 9⟩ = UpdateOutcome.success 9 ∧
    classifyResponse ⟨7, 9⟩ = UpdateOutcome.failUnknown 7 :=
  ⟨c1_response_classification.1 9,
   c1_response_classification.2.2.2.2.2.2.1 7 9 (by decide)⟩

/-- C4: when an explicitly supplied interface name is absent from the
enumeration, resolution fails with the distinct interface-not-found
error (the ValueError of src/main.py line 116) and never produces an
address of any other interface. -/
theorem c4_interface_not_found :
    ∀ nm enum, lookupIf nm enum = none →
      get_interface_ip_ex (some nm) (Except.ok enum) =
          Except.error (IfError.interfaceNotFound nm) ∧
      (∀ r, get_interface_ip_ex (some nm) (Except.ok enum) ≠ Except.ok r) ∧
      IfError.interfaceNotFound nm ≠ IfError.heuristicNoMatch ∧
      IfError.interfaceNotFound nm ≠ IfError.enumerationFailed := by
  intro nm enum h
  refine ⟨?_, ?_, nofun, nofun⟩
  · simp [get_interface_ip_ex, h]
  · intro r hc
    simp [get_interface_ip_ex, h] at hc

/-- Witness for C4: interface wg0 is absent from the sample enumeration. -/
theorem c4_interface_not_found_witness :
    lookupIf "wg0" enumEth = none ∧
    get_interface_ip_ex (some "wg0") (Except.ok enumEth) =
      Except.error (IfError.interfaceNotFound "wg0") :=
  ⟨by decide, (c4_interface_not_found "wg0" enumEth (by decide)).1⟩

/-- C6: a transport-level exception is classified as a transport failure,
distinct from every response-code outcome, and the engine consults only
the first exchange attempt — no retry happens within one invocation. -/
theorem c6_transport_separation :
    (∀ e, classifyExchange (Except.error e) = UpdateOutcome.transportFailed e) ∧
    (∀ e r, UpdateOutcome.transportFailed e ≠ classifyResponse r) ∧
    (∀ o1 o2 : Nat → ExchangeResult, o1 0 = o2 0 → engineRun o1 = engineRun o2) := by
  refine ⟨fun e => rfl, ?_, ?_⟩
  · intro e r
    simp only [classifyResponse]
    repeat' split
    all_goals simp
  · intro o1 o2 h
    simp [engineRun, h]

/-- Witness for C6: two oracles agreeing on attempt 0 but not on attempt 1
produce the same outcome. -/
theorem c6_transport_separation_witness :
    engineRun (fun _ => Except.ok ⟨0, 42⟩) =
      engineRun (fun n =>
        if n = 0 then Except.ok ⟨0, 42⟩ else Except.error TransportError.timeout) :=
  c6_transport_separation.2.2 _ _ rfl

/-- C3: within the chosen interface's address list, resolution returns the
first address that is IPv4 and neither loopback, link-local nor reserved
(the first usable entry in list order), and returns the failure value when
no such address exists — for an explicitly named interface as well as for
a heuristically chosen one. -/
theorem c3_first_usable_address :
    (∀ l : List SnicAddr, firstUsable l = (l.find? usableAddr).map SnicAddr.address) ∧
    (∀ nm enum netif, lookupIf nm enum = some netif →
        get_interface_ip (some nm) (Except.ok enum) =
          (netif.find? usableAddr).map SnicAddr.address) ∧
    (∀ enum netif, findSpecial enum = some netif →
        get_interface_ip none (Except.ok enum) =
          (netif.find? usableAddr).map SnicAddr.address) ∧
    (∀ nm enum netif, lookupIf nm enum = some netif → netif.find? usableAddr = none →
        get_interface_ip (some nm) (Except.ok enum) = none) := by
  refine ⟨firstUsable_eq_find, ?_, ?_, ?_⟩
  · intro nm enum netif h
    simp [get_interface_ip, get_interface_ip_ex, h, firstUsable_eq_find]
  · intro enum netif h
    simp [get_interface_ip, get_interface_ip_ex, h, firstUsable_eq_find]
  · intro nm enum netif h hn
    simp [get_interface_ip, get_interface_ip_ex, h, firstUsable_eq_find, hn]

/-- Witness for C3 on the sample enumeration: eth0's first usable address
is returned. -/
theorem c3_first_usable_address_witness :
    lookupIf "eth0" enumEth = some addrsEth ∧
    get_interface_ip (some "eth0") (Except.ok enumEth) =
      (addrsEth.find? usableAddr).map SnicAddr.address :=
  ⟨by decide, c3_first_usable_address.2.1 "eth0" enumEth addrsEth (by decide)⟩

/-- C5: with no interface name supplied, the heuristic scans the
enumeration in order and selects the first interface whose lowercased name
is in the fixed preference list; when no name matches, resolution errors
(the unbound-variable exception), the function returns the failure value,
and the whole run aborts with exit code 1 instead of selecting any
interface. -/
theorem c5_heuristic_first_match :
    (∀ enum : Enumeration,
        findSpecial enum =
          (enum.find? fun p => decide (strLower p.1 ∈ special_interfaces)).map Prod.snd) ∧
    (∀ enum : Enumeration,
        (enum.find? fun p => decide (strLower p.1 ∈ special_interfaces)) = none →
          get_interface_ip_ex none (Except.ok enum) = Except.error IfError.heuristicNoMatch ∧
          get_interface_ip none (Except.ok enum) = none) ∧
    (∀ (c0 : ConfigM) (enum : Enumeration) attrs oracle, c0.interface = none →
        (enum.find? fun p => decide (strLower p.1 ∈ special_interfaces)) = none →
        runProgram c0 (Except.ok enum) attrs oracle = Except.error 1) := by
  have hnone : ∀ enum : Enumeration,
      (enum.find? fun p => decide (strLower p.1 ∈ special_interfaces)) = none →
      get_interface_ip_ex none (Except.ok enum) = Except.error IfError.heuristicNoMatch := by
    intro enum h
    simp [get_interface_ip_ex, findSpecial_eq_find, h]
  refine ⟨findSpecial_eq_find, ?_, ?_⟩
  · intro enum h
    exact ⟨hnone enum h, by simp [get_interface_ip, hnone enum h]⟩
  · intro c0 enum attrs oracle hif h
    have hres : get_interface_ip c0.interface (Except.ok enum) = none := by
      rw [hif]
      simp [get_interface_ip, hnone enum h]
    unfold runProgram
    rw [hres]
    split <;> simp

/-- Witness for C5: an enumeration with no preference-list name makes the
run abort with exit code 1. -/
theorem c5_heuristic_first_match_witness :
    get_interface_ip_ex none (Except.ok enumEth) = Except.error IfError.heuristicNoMatch ∧
    runProgram { cfgOk with interface := none } (Except.ok enumEth) dirDnsQuery oracleNoerror =
      Except.error 1 :=
  ⟨((c5_heuristic_first_match.2.1 enumEth) (by decide)).1,
   c5_heuristic_first_match.2.2 { cfgOk with interface := none } enumEth dirDnsQuery
     oracleNoerror rfl (by decide)⟩

/-- C10: get_interface_ip is total towards its caller — every exception of
the try body is collapsed to the single failure value none — and the
caller aborts identically with exit code 1 whenever resolution yields
none, whatever the failure was. -/
theorem c10_failure_collapse :
    (∀ nm enum e, get_interface_ip_ex nm enum = Except.error e →
        get_interface_ip nm enum = none) ∧
    (∀ (c0 : ConfigM) enum attrs oracle, get_interface_ip c0.interface enum = none →
        runProgram c0 enum attrs oracle = Except.error 1) := by
  constructor
  · intro nm enum e h
    simp [get_interface_ip, h]
  · intro c0 enum attrs oracle h
    unfold runProgram
    rw [h]
    split <;> simp

/-- Witness for C10: the absent interface wg0 yields none and the run
aborts with exit 1. -/
theorem c10_failure_collapse_witness :
    get_interface_ip (some "wg0") (Except.ok enumEth) = none ∧
    runProgram { cfgOk with interface := some "wg0" } (Except.ok enumEth) dirDnsQuery
      oracleNoerror = Except.error 1 :=
  ⟨c10_failure_collapse.1 (some "wg0") (Except.ok enumEth)
      (IfError.interfaceNotFound "wg0") rfl,
   c10_failure_collapse.2 { cfgOk with interface := some "wg0" } (Except.ok enumEth)
      dirDnsQuery oracleNoerror (by decide)⟩

theorem takeN_append (xs rest : List Nat) : takeN xs.length (xs ++ rest) = some (xs, rest) := by
  induction xs with
  | nil => rfl
  | cons x xs ih => simp [takeN, ih]

theorem decodeStr_encodeStr (s : String) (r : List Nat) :
    decodeStr (encodeStr s ++ r) = some (s, r) := by
  obtain ⟨cs⟩ := s
  have hlen : (String.mk cs).length = (cs.map Char.toNat).length := by
    simp [String.length]
  have hmap : List.map Char.ofNat (List.map Char.toNat cs) = cs := by
    induction cs with
    | nil => rfl
    | cons c l ih => simp [ih, Char.ofNat_toNat]
  simp only [encodeStr, List.cons_append, decodeStr]
  rw [hlen, takeN_append]
  simp [hmap]

theorem decodeRClass_code (rc : RClass) : decodeRClass (rclassCode rc) = some rc := by
  cases rc <;> rfl

theorem decodeRecord_encodeRecord (d : WireRecord) (r : List Nat) :
    decodeRecord (encodeRecord d ++ r) = some (d, r) := by
  obtain ⟨nm, t, rc, ttl, rdata⟩ := d
  cases rdata with
  | none =>
      simp only [encodeRecord, List.append_assoc, List.cons_append, List.nil_append,
        decodeRecord]
      rw [decodeStr_encodeStr]
      simp [decodeRClass_code]
  | some a =>
      simp only [encodeRecord, List.append_assoc, List.cons_append, List.nil_append,
        decodeRecord]
      rw [decodeStr_encodeStr]
      simp [decodeRClass_code]

theorem decodeRecord_encodeRecord_nil (d : WireRecord) :
    decodeRecord (encodeRecord d) = some (d, []) := by
  simpa using decodeRecord_encodeRecord d []

/-- C2: for every hostname, zone, positive TTL and address, the built
UPDATE message is the single-zone RRset-replace action — delete any
existing A records for the hostname within the zone, then add exactly one
A record with that TTL and address — and serializing then decoding the
message recovers exactly that replace operation. -/
theorem c2_replace_roundtrip (hostname zone : String) (ttl address : Nat)
    (h : 0 < ttl) :
    buildUpdate hostname zone ttl address =
      ⟨zone, [⟨fqdn hostname zone, typeA, RClass.anyClass, 0, none⟩,
              ⟨fqdn hostname zone, typeA, RClass.inClass, ttl, some address⟩]⟩ ∧
    decodeReplace (serializeUpdate (buildUpdate hostname zone ttl address)) =
      some (zone, ⟨fqdn hostname zone, ttl, address⟩) := by
  refine ⟨rfl, ?_⟩
  simp only [serializeUpdate, buildUpdate, replaceOp, List.map_cons, List.map_nil,
    List.flatten_cons, List.flatten_nil, List.append_nil, List.append_assoc]
  simp only [decodeReplace, decodeStr_encodeStr, decodeRecord_encodeRecord,
    decodeRecord_encodeRecord_nil]
  simp

/-- Witness for C2 at the spec's concrete example: hostname host, zone
example.com., TTL 300, address 203.0.113.7 (numeric 3405803783). -/
theorem c2_replace_roundtrip_witness :
    buildUpdate "host" "example.com." 300 3405803783 =
      ⟨"example.com.", [⟨"host.example.com.", typeA, RClass.anyClass, 0, none⟩,
                        ⟨"host.example.com.", typeA, RClass.inClass, 300, some 3405803783⟩]⟩ ∧
    decodeReplace (serializeUpdate (buildUpdate "host" "example.com." 300 3405803783)) =
      some ("example.com.", ⟨"host.example.com.", 300, 3405803783⟩) :=
  c2_replace_roundtrip "host" "example.com." 300 3405803783 (by decide)

/-- C7 (failing case): with the zone left at its empty default and every
other required field present, the zone is normalized to the bare dot
before main's checks run, so the missing-zone abort never fires: the run
reaches the network exchange against the root zone instead of exiting
with a non-zero status. -/
theorem c7_zone_missing_reaches_exchange :
    normalizeZone "" = "." ∧
    runProgram cfgZoneMissing (Except.ok enumEth) dirDnsQuery oracleNoerror =
      Except.ok ⟨buildUpdate "host" "." 300 3221225985, UpdateOutcome.success 42⟩ :=
  ⟨rfl, rfl⟩

/-- C8 (counterexample): the protocol string tls lies outside the tcp/udp
enumeration, yet the reflective dispatch finds it among the query module's
attributes and selects it instead of failing with an unsupported-protocol
error. -/
theorem c8_counterexample :
    "tls" ∈ dirDnsQuery ∧ ¬("tls" = "tcp" ∨ "tls" = "udp") ∧
    protocolDispatch dirDnsQuery "tls" = Except.ok "tls" :=
  ⟨by decide, by decide, rfl⟩

/-- C8 (amended): transport selection is a reflective attribute lookup —
dispatch fails with the unsupported-protocol error exactly when the
protocol string is not among the module's attributes, and then the run
aborts without consulting the network; for the validated protocol values
tcp and udp the lookup selects the attribute of the same name. -/
theorem c8_reflective_dispatch :
    (∀ (moduleAttrs : List String) (p : String),
        protocolDispatch moduleAttrs p = Except.error p ↔ p ∉ moduleAttrs) ∧
    (∀ p, p = "tcp" ∨ p = "udp" → protocolDispatch dirDnsQuery p = Except.ok p) ∧
    (∀ (c0 : ConfigM) enum attrs o1 o2, c0.protocol ∉ attrs →
        runProgram c0 enum attrs o1 = runProgram c0 enum attrs o2) := by
  refine ⟨?_, ?_, ?_⟩
  · intro attrs p
    by_cases hp : p ∈ attrs
    · simp [protocolDispatch, hp]
    · simp [protocolDispatch, hp]
  · rintro p (rfl | rfl) <;> rfl
  · intro c0 enum attrs o1 o2 hp
    have hd : protocolDispatch attrs c0.protocol = Except.error c0.protocol := by
      simp [protocolDispatch, hp]
    unfold runProgram
    rw [hd]

/-- Witness for C8's amended statement: udp dispatches to the udp
attribute, and an unsupported protocol string makes the run independent
of the exchange oracle. -/
theorem c8_reflective_dispatch_witness :
    protocolDispatch dirDnsQuery "udp" = Except.ok "udp" ∧
    runProgram { cfgOk with protocol := "bogus" } (Except.ok enumEth) dirDnsQuery
        oracleNoerror =
      runProgram { cfgOk with protocol := "bogus" } (Except.ok enumEth) dirDnsQuery
        (fun _ => Except.error TransportError.timeout) :=
  ⟨c8_reflective_dispatch.2.1 "udp" (Or.inr rfl),
   c8_reflective_dispatch.2.2 { cfgOk with protocol := "bogus" } (Except.ok enumEth)
     dirDnsQuery oracleNoerror (fun _ => Except.error TransportError.timeout) (by decide)⟩

/-- C9 (counterexample): a configuration with TTL zero passes every
precondition check, reaches the exchange, and the update message carries
TTL zero — not a strictly positive value. -/
theorem c9_counterexample :
    runProgram cfgTtlZero (Except.ok enumEth) dirDnsQuery oracleNoerror =
      Except.ok ⟨buildUpdate "host" "example.com." 0 3221225985, UpdateOutcome.success 42⟩ ∧
    requestTtl (buildUpdate "host" "example.com." 0 3221225985) = some 0 ∧
    ¬ 0 < (0 : Nat) :=
  ⟨rfl, rfl, by decide⟩

/-- C9 (amended): the TTL of the update message is the configured TTL
verbatim (as a natural number, the run having aborted on TTLs outside the
DNS range); it is strictly positive whenever the configured TTL is, and
both configuration defaults are positive — but the precondition checks do
not reject a non-positive TTL. -/
theorem c9_ttl_passthrough :
    (∀ (c0 : ConfigM) enum attrs oracle res,
        runProgram c0 enum attrs oracle = Except.ok res →
        requestTtl res.request = some c0.ttl.toNat ∧
        (0 < c0.ttl → ∃ t, requestTtl res.request = some t ∧ 0 < t)) ∧
    0 < configDefaultTtl ∧ 0 < cliDefaultTtl := by
  refine ⟨?_, by decide, by decide⟩
  intro c0 enum attrs oracle res h
  unfold runProgram at h
  repeat' split at h
  all_goals simp_all
  subst h
  constructor
  · rfl
  · intro hpos
    refine ⟨c0.ttl.toNat, rfl, ?_⟩
    omega

/-- Witness for C9's amended statement at the valid configuration with
TTL 300. -/
theorem c9_ttl_passthrough_witness :
    requestTtl (buildUpdate "host" "example.com." 300 3221225985) = some ((300 : Int)).toNat ∧
    (0 < (300 : Int) → ∃ t,
        requestTtl (buildUpdate "host" "example.com." 300 3221225985) = some t ∧ 0 < t) :=
  c9_ttl_passthrough.1 cfgOk (Except.ok enumEth) dirDnsQuery oracleNoerror
    ⟨buildUpdate "host" "example.com." 300 3221225985, UpdateOutcome.success 42⟩ rfl
